import Mathlib

/-!
Shallow embedding of `src/scripts/nct-id.c`, a Super I/O chip identifier.

The C program interacts with the outside world through exactly three
primitives: `ioperm` (request byte-level access to one I/O port; returns
0 on success, nonzero on denial), `outb` (write one byte to a port) and
`inb` (read one byte from a port).  We model the environment as a pair of
functions: `grant` decides each `ioperm` request by port number, and
`readVal` gives the byte delivered by `inb`, as a function of the full
event trace so far and of the port read — this lets a fake backend answer
register reads according to which register number was last written to the
index port, exactly like the record/replay backend the spec describes.

Every externally visible action is recorded as an `Event`; each embedded
function threads the trace explicitly.  `Event.permRelease` models an
`ioperm(port, 1, 0)` revocation call; the program never performs one, so
the constructor never occurs in any trace the embedding produces.
-/

/-- Externally visible actions of the program: an `ioperm` acquisition
request together with the environment's answer, an `ioperm` revocation
(never emitted by this program), a byte written to a port by `outb`, and
a byte read from a port by `inb`. -/
inductive Event where
  | permRequest (port : Nat) (granted : Bool)
  | permRelease (port : Nat)
  | writeByte (port : Nat) (val : Nat)
  | readByte (port : Nat) (val : Nat)
deriving DecidableEq, Repr

/-- The operating environment: `grant` decides each `ioperm` request by
port number; `readVal` is the byte the hardware returns for an `inb` on
`port`, given the event trace produced so far (reduced mod 256, since
`inb` returns an 8-bit quantity). -/
structure Env where
  grant : Nat → Bool
  readVal : List Event → Nat → Nat

/-- Embeds `sio_enter` (nct-id.c lines 81-95): request I/O permission for
the index port and then, only if that succeeded (the C `||`
short-circuits), for the data port `idx+1`; on any denial return `-1`
having written nothing; on success write the magic byte `0x87` twice to
the index port and return `0`. -/
def sio_enter (env : Env) (tr : List Event) (idx : Nat) : Int × List Event :=
  let g1 := env.grant idx
  let tr1 := tr ++ [Event.permRequest idx g1]
  if g1 then
    let g2 := env.grant (idx + 1)
    let tr2 := tr1 ++ [Event.permRequest (idx + 1) g2]
    if g2 then
      (0, tr2 ++ [Event.writeByte idx 0x87, Event.writeByte idx 0x87])
    else
      (-1, tr2)
  else
    (-1, tr1)

/-- Embeds `sio_exit` (nct-id.c lines 103-106): write `0xAA` to the index
port; the `ioperm` grant is not released (the C comment notes process
exit cleans it up). -/
def sio_exit (tr : List Event) (idx : Nat) : List Event :=
  tr ++ [Event.writeByte idx 0xAA]

/-- Embeds `sio_write_cr` (nct-id.c lines 115-118): write the register
number to the index port, then the value to the data port `idx+1`. -/
def sio_write_cr (tr : List Event) (idx reg val : Nat) : List Event :=
  tr ++ [Event.writeByte idx reg, Event.writeByte (idx + 1) val]

/-- Embeds `sio_read_cr` (nct-id.c lines 127-130): write the register
number to the index port, then read one byte from the data port `idx+1`. -/
def sio_read_cr (env : Env) (tr : List Event) (idx reg : Nat) : Nat × List Event :=
  let tr1 := tr ++ [Event.writeByte idx reg]
  let v := env.readVal tr1 (idx + 1) % 256
  (v, tr1 ++ [Event.readByte (idx + 1) v])

/-- Embeds `devid = ((unsigned)id_hi << 8) | id_lo` (nct-id.c line 175):
16-bit assembly of the chip-identity register pair, first-read byte
shifted into the high position. -/
def assemble_devid (hi lo : Nat) : Nat :=
  (hi <<< 8) ||| lo

/-- Embeds `unsigned short base = (ba_hi << 8) | ba_lo` (nct-id.c line
195): 16-bit assembly of the base-address register pair; the store into
`unsigned short` truncates mod 2^16. -/
def assemble_base (hi lo : Nat) : Nat :=
  ((hi <<< 8) ||| lo) % 65536

/-- One emitted probe result, the data of the `printf` at nct-id.c lines
203-206: the index port, the assembled device identity, and the assembled
HWM base address. -/
structure Found where
  port : Nat
  devid : Nat
  base : Nat
deriving DecidableEq, Repr

/-- Embeds one iteration of the candidate loop in `main` (nct-id.c lines
154-209): attempt `sio_enter`; on failure emit nothing (`continue`); on
success read CR `0x20`/`0x21` and assemble the device identity, select
logical device `0x0B` via CR `0x07`, read CR `0x60`/`0x61` and assemble
the base address, emit the result, then `sio_exit`. -/
def probe_port (env : Env) (tr : List Event) (idx : Nat) : Option Found × List Event :=
  let (r, tr1) := sio_enter env tr idx
  if r = 0 then
    let (id_hi, tr2) := sio_read_cr env tr1 idx 0x20
    let (id_lo, tr3) := sio_read_cr env tr2 idx 0x21
    let devid := assemble_devid id_hi id_lo
    let tr4 := sio_write_cr tr3 idx 0x07 0x0B
    let (ba_hi, tr5) := sio_read_cr env tr4 idx 0x60
    let (ba_lo, tr6) := sio_read_cr env tr5 idx 0x61
    let base := assemble_base ba_hi ba_lo
    (some ⟨idx, devid, base⟩, sio_exit tr6 idx)
  else
    (none, tr1)

/-- The candidate Super I/O index ports tried by `main`
(nct-id.c line 152): `{0x2E, 0x4E}`. -/
def idx_ports : List Nat := [0x2E, 0x4E]

/-- The candidate loop of `main` (nct-id.c lines 154-209): probe each
candidate in order, collecting the emitted results and the full event
trace. -/
def runProbe (env : Env) (ports : List Nat) (tr : List Event) : List Found × List Event :=
  match ports with
  | [] => ([], tr)
  | idx :: rest =>
    let pr := probe_port env tr idx
    let rec2 := runProbe env rest pr.2
    (pr.1.toList ++ rec2.1, rec2.2)

/-- Embeds `main` (nct-id.c lines 146-212): run the probe over the two
candidate ports starting from the empty trace, and return its exit status
(`return 0;` at line 211) together with the emitted results and the event
trace. -/
def main_run (env : Env) : Int × List Found × List Event :=
  (0, runProbe env idx_ports [])

/-! Fake backends used as concrete environments. -/

/-- Last value written to port `p` in the trace, if any: how a
register-file-style fake backend decides which register is selected. -/
def lastWriteTo (p : Nat) (tr : List Event) : Option Nat :=
  tr.foldl
    (fun acc e =>
      match e with
      | Event.writeByte q v => if q = p then some v else acc
      | _ => acc)
    none

/-- Register file of end-to-end scenario A: identity bytes `0xD4`, `0x28`
in CR `0x20`/`0x21` and base-address bytes `0x02`, `0x90` in CR
`0x60`/`0x61`; all other registers read as zero. -/
def regsA (r : Nat) : Nat :=
  if r = 0x20 then 0xD4
  else if r = 0x21 then 0x28
  else if r = 0x60 then 0x02
  else if r = 0x61 then 0x90
  else 0

/-- Fake backend of end-to-end scenario A: grants access on port `0x2E`
(and its data port `0x2F`), denies everything else, and answers each data
port read from `regsA` at the register number last written to the
corresponding index port. -/
def envA : Env where
  grant := fun p => p == 0x2E || p == 0x2F
  readVal := fun tr port =>
    match lastWriteTo (port - 1) tr with
    | some r => regsA r
    | none => 0

/-- Fake backend of end-to-end scenario B: every `ioperm` request is
denied; reads (never reached) return zero. -/
def envB : Env where
  grant := fun _ => false
  readVal := fun _ _ => 0

/-- Fake backend in which port `0x2E` is granted but its data port `0x2F`
is denied: exercises the short-circuit inside `sio_enter`. -/
def envC : Env where
  grant := fun p => p == 0x2E
  readVal := fun _ _ => 0

/-! Helper lemmas shared by the claim theorems. -/

/-- Shifting left by `k` and or-ing in a value below `2 ^ k` is the same
as positional composition `2 ^ k * hi + lo`. -/
theorem shiftLeft_lor_eq (k : Nat) :
    ∀ hi lo : Nat, lo < 2 ^ k → (hi <<< k) ||| lo = 2 ^ k * hi + lo := by
  induction k with
  | zero =>
    intro hi lo h
    have hz : lo = 0 := by omega
    subst hz
    simp [Nat.shiftLeft_zero]
  | succ k ih =>
    intro hi lo h
    have key : 2 * Nat.div2 lo + (Nat.bodd lo).toNat = lo := by
      rw [← Nat.bit_val]
      exact Nat.bit_decomp lo
    have hm : Nat.div2 lo < 2 ^ k := by
      have hp : 2 ^ (k + 1) = 2 * 2 ^ k := by ring
      omega
    have h2 : 2 * (hi <<< k) = Nat.bit false (hi <<< k) := by simp [Nat.bit_val]
    rw [Nat.shiftLeft_succ, h2, ← Nat.bit_decomp lo, Nat.lor_bit]
    simp only [Bool.false_or]
    rw [Nat.bit_val, ih hi (Nat.div2 lo) hm]
    have hp : 2 ^ (k + 1) = 2 * 2 ^ k := by ring
    rw [Nat.bit_decomp lo, hp, Nat.mul_assoc]
    omega

/-- `sio_enter` reports success exactly when the environment grants both
the index port and the data port. -/
theorem sio_enter_ok (env : Env) (tr : List Event) (idx : Nat) :
    (sio_enter env tr idx).1 = 0 ↔
      env.grant idx = true ∧ env.grant (idx + 1) = true := by
  cases h1 : env.grant idx <;> cases h2 : env.grant (idx + 1) <;>
    simp [sio_enter, h1, h2]

/-- The four bytes a granted session reads from the data port, replayed
through the same `sio_read_cr` / `sio_write_cr` steps as `probe_port`
performs, so that they can be named in the trace lemmas below. -/
def sessionBytes (env : Env) (tr : List Event) (idx : Nat) : Nat × Nat × Nat × Nat :=
  let tr0 := tr ++ [Event.permRequest idx true, Event.permRequest (idx + 1) true,
                    Event.writeByte idx 0x87, Event.writeByte idx 0x87]
  let (v1, tr1) := sio_read_cr env tr0 idx 0x20
  let (v2, tr2) := sio_read_cr env tr1 idx 0x21
  let tr3 := sio_write_cr tr2 idx 0x07 0x0B
  let (v3, tr4) := sio_read_cr env tr3 idx 0x60
  let (v4, _) := sio_read_cr env tr4 idx 0x61
  (v1, v2, v3, v4)

/-- Each session byte is an 8-bit quantity. -/
theorem sessionBytes_lt (env : Env) (tr : List Event) (idx : Nat) :
    (sessionBytes env tr idx).1 < 256 ∧ (sessionBytes env tr idx).2.1 < 256 ∧
    (sessionBytes env tr idx).2.2.1 < 256 ∧ (sessionBytes env tr idx).2.2.2 < 256 := by
  refine ⟨?_, ?_, ?_, ?_⟩ <;> simp [sessionBytes, sio_read_cr, sio_write_cr] <;> omega

/-- Explicit description of a granted probe iteration: the emitted result
and the exact event trace it appends, byte values given by `sessionBytes`. -/
theorem probe_port_granted (env : Env) (tr : List Event) (idx : Nat)
    (h1 : env.grant idx = true) (h2 : env.grant (idx + 1) = true) :
    probe_port env tr idx =
      (some ⟨idx,
             assemble_devid (sessionBytes env tr idx).1 (sessionBytes env tr idx).2.1,
             assemble_base (sessionBytes env tr idx).2.2.1 (sessionBytes env tr idx).2.2.2⟩,
       tr ++ [Event.permRequest idx true, Event.permRequest (idx + 1) true,
              Event.writeByte idx 0x87, Event.writeByte idx 0x87,
              Event.writeByte idx 0x20, Event.readByte (idx + 1) (sessionBytes env tr idx).1,
              Event.writeByte idx 0x21, Event.readByte (idx + 1) (sessionBytes env tr idx).2.1,
              Event.writeByte idx 0x07, Event.writeByte (idx + 1) 0x0B,
              Event.writeByte idx 0x60, Event.readByte (idx + 1) (sessionBytes env tr idx).2.2.1,
              Event.writeByte idx 0x61, Event.readByte (idx + 1) (sessionBytes env tr idx).2.2.2,
              Event.writeByte idx 0xAA]) := by
  simp [probe_port, sessionBytes, sio_enter, sio_read_cr, sio_write_cr, sio_exit, h1, h2]

/-! Claim theorems. -/

/-- Claim C1: with candidates `[0x2E, 0x4E]` and the scenario-A backend
(access granted on `0x2E` with identity bytes `0xD4`, `0x28` and
base-address bytes `0x02`, `0x90`; access denied on `0x4E`), the probe
emits exactly one result, `Found(0x2E, 0xD428, 0x0290)`, and no result
for `0x4E`. -/
theorem claim_C1_scenarioA :
    (main_run envA).2.1 = [⟨0x2E, 0xD428, 0x0290⟩] := by
  decide

/-- Claim C2: both register-pair assemblies treat the first-read byte as
the high byte and the second-read byte as the low byte; in particular
`(0xD4, 0x28)` assembles to `0xD428` and `(0x02, 0x90)` to `0x0290`. -/
theorem claim_C2_assembly (hi lo : Nat) (hhi : hi < 256) (hlo : lo < 256) :
    assemble_devid hi lo = 256 * hi + lo ∧
    assemble_base hi lo = 256 * hi + lo ∧
    assemble_devid 0xD4 0x28 = 0xD428 ∧
    assemble_base 0x02 0x90 = 0x0290 := by
  have key : (hi <<< 8) ||| lo = 256 * hi + lo := by
    have := shiftLeft_lor_eq 8 hi lo (by norm_num [hlo])
    simpa using this
  refine ⟨key, ?_, by decide, by decide⟩
  unfold assemble_base
  rw [key]
  omega

/-- Witness for C2 at the claim's own inputs. -/
theorem claim_C2_assembly_witness :
    assemble_devid 0xD4 0x28 = 256 * 0xD4 + 0x28 ∧
    assemble_base 0xD4 0x28 = 256 * 0xD4 + 0x28 ∧
    assemble_devid 0xD4 0x28 = 0xD428 ∧
    assemble_base 0x02 0x90 = 0x0290 :=
  claim_C2_assembly 0xD4 0x28 (by decide) (by decide)

/-- Claim C6: a successful `acquire` writes the magic byte `0x87` twice
to the index port and performs no other port write (the two `permRequest`
events are capability requests, not port writes), and `release` writes
exactly the single lock byte `0xAA` to the index port and nothing else. -/
theorem claim_C6_magic :
    (∀ (env : Env) (tr : List Event) (idx : Nat),
        env.grant idx = true → env.grant (idx + 1) = true →
        sio_enter env tr idx =
          (0, tr ++ [Event.permRequest idx true, Event.permRequest (idx + 1) true,
                     Event.writeByte idx 0x87, Event.writeByte idx 0x87])) ∧
    (∀ (tr : List Event) (idx : Nat),
        sio_exit tr idx = tr ++ [Event.writeByte idx 0xAA]) := by
  constructor
  · intro env tr idx h1 h2
    simp [sio_enter, h1, h2]
  · intro tr idx
    rfl

/-- Witness for C6 on the scenario-A backend at port `0x2E`. -/
theorem claim_C6_magic_witness :
    envA.grant 0x2E = true ∧ envA.grant (0x2E + 1) = true ∧
    sio_enter envA [] 0x2E =
      (0, [Event.permRequest 0x2E true, Event.permRequest (0x2E + 1) true,
           Event.writeByte 0x2E 0x87, Event.writeByte 0x2E 0x87]) ∧
    sio_exit [] 0x2E = [Event.writeByte 0x2E 0xAA] :=
  ⟨by decide, by decide,
   by simpa using claim_C6_magic.1 envA [] 0x2E (by decide) (by decide),
   claim_C6_magic.2 [] 0x2E⟩

/-- Claim C7: every configuration-register access addresses the data
port at exactly `idx + 1`: `sio_read_cr` writes the register number to
the index port then reads its byte from `idx + 1`, `sio_write_cr`
writes the register number to the index port then the value to
`idx + 1`, and no other port is touched by either. -/
theorem claim_C7_data_port (env : Env) (tr : List Event) (idx reg val : Nat) :
    sio_write_cr tr idx reg val =
      tr ++ [Event.writeByte idx reg, Event.writeByte (idx + 1) val] ∧
    (sio_read_cr env tr idx reg).2 =
      tr ++ [Event.writeByte idx reg,
             Event.readByte (idx + 1) ((sio_read_cr env tr idx reg).1)] ∧
    (sio_read_cr env tr idx reg).1 =
      env.readVal (tr ++ [Event.writeByte idx reg]) (idx + 1) % 256 := by
  refine ⟨rfl, ?_, rfl⟩
  simp [sio_read_cr]

/-- Claim C10: `acquire` requests the index port and the data port as two
separate environment operations in that order, short-circuiting on the
first failure; when the index port is granted but the data port is
denied, it reports failure while the trace still records the granted
index-port request and contains no revocation (`permRelease`) event. -/
theorem claim_C10_nonatomic :
    (∀ (env : Env) (tr : List Event) (idx : Nat),
        env.grant idx = false →
        sio_enter env tr idx = (-1, tr ++ [Event.permRequest idx false])) ∧
    (∀ (env : Env) (tr : List Event) (idx : Nat),
        env.grant idx = true → env.grant (idx + 1) = false →
        sio_enter env tr idx =
          (-1, tr ++ [Event.permRequest idx true,
                      Event.permRequest (idx + 1) false]) ∧
        ∀ p, Event.permRelease p ∉ List.drop tr.length (sio_enter env tr idx).2) := by
  constructor
  · intro env tr idx h1
    simp [sio_enter, h1]
  · intro env tr idx h1 h2
    have he : sio_enter env tr idx =
        (-1, tr ++ [Event.permRequest idx true,
                    Event.permRequest (idx + 1) false]) := by
      simp [sio_enter, h1, h2]
    refine ⟨he, ?_⟩
    intro p
    rw [he]
    simp

/-- Witness for C10 on the backend that grants `0x2E` but denies `0x2F`. -/
theorem claim_C10_nonatomic_witness :
    envC.grant 0x2E = true ∧ envC.grant (0x2E + 1) = false ∧
    (sio_enter envC [] 0x2E =
      (-1, [Event.permRequest 0x2E true, Event.permRequest (0x2E + 1) false]) ∧
     ∀ p, Event.permRelease p ∉ List.drop ([] : List Event).length (sio_enter envC [] 0x2E).2) :=
  ⟨by decide, by decide, claim_C10_nonatomic.2 envC [] 0x2E (by decide) (by decide)⟩

/-- Claim C5: on a granted candidate the session performs exactly, and in
this order: the unlock handshake, the identity-pair reads (CR `0x20` then
CR `0x21`, first byte high), the selector write (CR `0x07` set to
`0x0B`), the base-address-pair reads (CR `0x60` then CR `0x61`, first
byte high), the emission of the `Found` result for that port, and the
lock write. -/
theorem claim_C5_protocol (env : Env) (tr : List Event) (idx : Nat)
    (h : (sio_enter env tr idx).1 = 0) :
    ∃ v1 v2 v3 v4,
      v1 < 256 ∧ v2 < 256 ∧ v3 < 256 ∧ v4 < 256 ∧
      probe_port env tr idx =
        (some ⟨idx, assemble_devid v1 v2, assemble_base v3 v4⟩,
         tr ++ [Event.permRequest idx true, Event.permRequest (idx + 1) true,
                Event.writeByte idx 0x87, Event.writeByte idx 0x87,
                Event.writeByte idx 0x20, Event.readByte (idx + 1) v1,
                Event.writeByte idx 0x21, Event.readByte (idx + 1) v2,
                Event.writeByte idx 0x07, Event.writeByte (idx + 1) 0x0B,
                Event.writeByte idx 0x60, Event.readByte (idx + 1) v3,
                Event.writeByte idx 0x61, Event.readByte (idx + 1) v4,
                Event.writeByte idx 0xAA]) := by
  obtain ⟨h1, h2⟩ := (sio_enter_ok env tr idx).mp h
  obtain ⟨b1, b2, b3, b4⟩ := sessionBytes_lt env tr idx
  exact ⟨_, _, _, _, b1, b2, b3, b4, probe_port_granted env tr idx h1 h2⟩

/-- Witness for C5 on the scenario-A backend at port `0x2E`. -/
theorem claim_C5_protocol_witness :
    (sio_enter envA [] 0x2E).1 = 0 ∧
    ∃ v1 v2 v3 v4,
      v1 < 256 ∧ v2 < 256 ∧ v3 < 256 ∧ v4 < 256 ∧
      probe_port envA [] 0x2E =
        (some ⟨0x2E, assemble_devid v1 v2, assemble_base v3 v4⟩,
         [] ++ [Event.permRequest 0x2E true, Event.permRequest (0x2E + 1) true,
                Event.writeByte 0x2E 0x87, Event.writeByte 0x2E 0x87,
                Event.writeByte 0x2E 0x20, Event.readByte (0x2E + 1) v1,
                Event.writeByte 0x2E 0x21, Event.readByte (0x2E + 1) v2,
                Event.writeByte 0x2E 0x07, Event.writeByte (0x2E + 1) 0x0B,
                Event.writeByte 0x2E 0x60, Event.readByte (0x2E + 1) v3,
                Event.writeByte 0x2E 0x61, Event.readByte (0x2E + 1) v4,
                Event.writeByte 0x2E 0xAA]) :=
  ⟨by decide, claim_C5_protocol envA [] 0x2E (by decide)⟩

/-- Claim C4: on a granted candidate the lock byte `0xAA` is written to
the index port exactly once, as the final event of the session, strictly
after the unlock writes; it occurs nowhere earlier in the session's
events, on the only code path through the register-access steps. -/
theorem claim_C4_release (env : Env) (tr : List Event) (idx : Nat)
    (h : (sio_enter env tr idx).1 = 0) :
    ∃ mid,
      List.drop tr.length (probe_port env tr idx).2 =
        ([Event.permRequest idx true, Event.permRequest (idx + 1) true,
          Event.writeByte idx 0x87, Event.writeByte idx 0x87] ++ mid) ++
          [Event.writeByte idx 0xAA] ∧
      Event.writeByte idx 0xAA ∉
        [Event.permRequest idx true, Event.permRequest (idx + 1) true,
         Event.writeByte idx 0x87, Event.writeByte idx 0x87] ++ mid := by
  obtain ⟨h1, h2⟩ := (sio_enter_ok env tr idx).mp h
  refine ⟨[Event.writeByte idx 0x20, Event.readByte (idx + 1) (sessionBytes env tr idx).1,
           Event.writeByte idx 0x21, Event.readByte (idx + 1) (sessionBytes env tr idx).2.1,
           Event.writeByte idx 0x07, Event.writeByte (idx + 1) 0x0B,
           Event.writeByte idx 0x60, Event.readByte (idx + 1) (sessionBytes env tr idx).2.2.1,
           Event.writeByte idx 0x61, Event.readByte (idx + 1) (sessionBytes env tr idx).2.2.2],
         ?_, ?_⟩
  · rw [probe_port_granted env tr idx h1 h2]
    simp
  · simp

/-- Witness for C4 on the scenario-A backend at port `0x2E`. -/
theorem claim_C4_release_witness :
    (sio_enter envA [] 0x2E).1 = 0 ∧
    ∃ mid,
      List.drop ([] : List Event).length (probe_port envA [] 0x2E).2 =
        ([Event.permRequest 0x2E true, Event.permRequest (0x2E + 1) true,
          Event.writeByte 0x2E 0x87, Event.writeByte 0x2E 0x87] ++ mid) ++
          [Event.writeByte 0x2E 0xAA] ∧
      Event.writeByte 0x2E 0xAA ∉
        [Event.permRequest 0x2E true, Event.permRequest (0x2E + 1) true,
         Event.writeByte 0x2E 0x87, Event.writeByte 0x2E 0x87] ++ mid :=
  ⟨by decide, claim_C4_release envA [] 0x2E (by decide)⟩

/-- Claim C9: on a granted candidate every configuration-register access
(index-port register-number write, data-port value write, data-port
read) lies strictly between the unlock handshake and the lock write: the
session events decompose as the unlock prefix, then a body made only of
such accesses, then the single lock write. -/
theorem claim_C9_window (env : Env) (tr : List Event) (idx : Nat)
    (h : (sio_enter env tr idx).1 = 0) :
    ∃ body,
      List.drop tr.length (probe_port env tr idx).2 =
        [Event.permRequest idx true, Event.permRequest (idx + 1) true,
         Event.writeByte idx 0x87, Event.writeByte idx 0x87] ++ body ++
          [Event.writeByte idx 0xAA] ∧
      ∀ e ∈ body,
        (∃ r, e = Event.writeByte idx r) ∨
        (∃ v, e = Event.writeByte (idx + 1) v) ∨
        (∃ v, e = Event.readByte (idx + 1) v) := by
  obtain ⟨h1, h2⟩ := (sio_enter_ok env tr idx).mp h
  refine ⟨[Event.writeByte idx 0x20, Event.readByte (idx + 1) (sessionBytes env tr idx).1,
           Event.writeByte idx 0x21, Event.readByte (idx + 1) (sessionBytes env tr idx).2.1,
           Event.writeByte idx 0x07, Event.writeByte (idx + 1) 0x0B,
           Event.writeByte idx 0x60, Event.readByte (idx + 1) (sessionBytes env tr idx).2.2.1,
           Event.writeByte idx 0x61, Event.readByte (idx + 1) (sessionBytes env tr idx).2.2.2],
         ?_, ?_⟩
  · rw [probe_port_granted env tr idx h1 h2]
    simp
  · intro e he
    simp only [List.mem_cons, List.not_mem_nil, or_false] at he
    rcases he with rfl | rfl | rfl | rfl | rfl | rfl | rfl | rfl | rfl | rfl
    · exact Or.inl ⟨_, rfl⟩
    · exact Or.inr (Or.inr ⟨_, rfl⟩)
    · exact Or.inl ⟨_, rfl⟩
    · exact Or.inr (Or.inr ⟨_, rfl⟩)
    · exact Or.inl ⟨_, rfl⟩
    · exact Or.inr (Or.inl ⟨_, rfl⟩)
    · exact Or.inl ⟨_, rfl⟩
    · exact Or.inr (Or.inr ⟨_, rfl⟩)
    · exact Or.inl ⟨_, rfl⟩
    · exact Or.inr (Or.inr ⟨_, rfl⟩)

/-- Witness for C9 on the scenario-A backend at port `0x2E`. -/
theorem claim_C9_window_witness :
    (sio_enter envA [] 0x2E).1 = 0 ∧
    ∃ body,
      List.drop ([] : List Event).length (probe_port envA [] 0x2E).2 =
        [Event.permRequest 0x2E true, Event.permRequest (0x2E + 1) true,
         Event.writeByte 0x2E 0x87, Event.writeByte 0x2E 0x87] ++ body ++
          [Event.writeByte 0x2E 0xAA] ∧
      ∀ e ∈ body,
        (∃ r, e = Event.writeByte 0x2E r) ∨
        (∃ v, e = Event.writeByte (0x2E + 1) v) ∨
        (∃ v, e = Event.readByte (0x2E + 1) v) :=
  ⟨by decide, claim_C9_window envA [] 0x2E (by decide)⟩

/-- Whatever the environment answers, a probe iteration always appends a
permission request for the candidate's index port as its first new
event. -/
theorem probe_port_trace_head (env : Env) (tr : List Event) (idx : Nat) :
    ∃ l, (probe_port env tr idx).2 =
      tr ++ Event.permRequest idx (env.grant idx) :: l := by
  cases h1 : env.grant idx
  case false =>
    refine ⟨[], ?_⟩
    simp [probe_port, sio_enter, h1]
  case true =>
    cases h2 : env.grant (idx + 1)
    case false =>
      refine ⟨[Event.permRequest (idx + 1) false], ?_⟩
      simp [probe_port, sio_enter, h1, h2]
    case true =>
      refine ⟨[Event.permRequest (idx + 1) true,
               Event.writeByte idx 0x87, Event.writeByte idx 0x87,
               Event.writeByte idx 0x20,
               Event.readByte (idx + 1) (sessionBytes env tr idx).1,
               Event.writeByte idx 0x21,
               Event.readByte (idx + 1) (sessionBytes env tr idx).2.1,
               Event.writeByte idx 0x07, Event.writeByte (idx + 1) 0x0B,
               Event.writeByte idx 0x60,
               Event.readByte (idx + 1) (sessionBytes env tr idx).2.2.1,
               Event.writeByte idx 0x61,
               Event.readByte (idx + 1) (sessionBytes env tr idx).2.2.2,
               Event.writeByte idx 0xAA], ?_⟩
      rw [probe_port_granted env tr idx h1 h2]

/-- Claim C3: when `acquire` is denied for a candidate, the probe emits
nothing for it, performs no register read, register write, or release on
its ports (the only events it appends are permission requests), and the
candidate loop proceeds to the remaining candidates. -/
theorem claim_C3_skip (env : Env) (tr : List Event) (idx : Nat) (rest : List Nat)
    (h : (sio_enter env tr idx).1 ≠ 0) :
    (probe_port env tr idx).1 = none ∧
    (probe_port env tr idx).2 = (sio_enter env tr idx).2 ∧
    (∀ e ∈ List.drop tr.length (probe_port env tr idx).2,
      ∃ p g, e = Event.permRequest p g) ∧
    (runProbe env (idx :: rest) tr).1 =
      (runProbe env rest (probe_port env tr idx).2).1 := by
  have hp : probe_port env tr idx = (none, (sio_enter env tr idx).2) := by
    cases h1 : env.grant idx
    case false => simp [probe_port, sio_enter, h1]
    case true =>
      cases h2 : env.grant (idx + 1)
      case false => simp [probe_port, sio_enter, h1, h2]
      case true =>
        exact absurd ((sio_enter_ok env tr idx).mpr ⟨h1, h2⟩) h
  refine ⟨by rw [hp], by rw [hp], ?_, ?_⟩
  · intro e he
    rw [hp] at he
    cases h1 : env.grant idx
    case false =>
      rw [show (sio_enter env tr idx).2 = tr ++ [Event.permRequest idx false] by
            simp [sio_enter, h1]] at he
      simp only [List.drop_left, List.mem_singleton] at he
      exact ⟨idx, false, he⟩
    case true =>
      cases h2 : env.grant (idx + 1)
      case false =>
        rw [show (sio_enter env tr idx).2 =
              tr ++ [Event.permRequest idx true, Event.permRequest (idx + 1) false] by
              simp [sio_enter, h1, h2]] at he
        simp only [List.drop_left, List.mem_cons, List.not_mem_nil, or_false] at he
        rcases he with rfl | rfl
        · exact ⟨idx, true, rfl⟩
        · exact ⟨idx + 1, false, rfl⟩
      case true =>
        exact absurd ((sio_enter_ok env tr idx).mpr ⟨h1, h2⟩) h
  · simp [runProbe, hp]

/-- Witness for C3 on the all-denied backend at port `0x2E`. -/
theorem claim_C3_skip_witness :
    (sio_enter envB [] 0x2E).1 ≠ 0 ∧
    ((probe_port envB [] 0x2E).1 = none ∧
     (probe_port envB [] 0x2E).2 = (sio_enter envB [] 0x2E).2 ∧
     (∀ e ∈ List.drop ([] : List Event).length (probe_port envB [] 0x2E).2,
       ∃ p g, e = Event.permRequest p g) ∧
     (runProbe envB (0x2E :: [0x4E]) []).1 =
       (runProbe envB [0x4E] (probe_port envB [] 0x2E).2).1) :=
  ⟨by decide, claim_C3_skip envB [] 0x2E [0x4E] (by decide)⟩

/-- Claim C8: the probe never aborts: for every environment the process
finishes with exit status `0`, permission is requested for both
candidates (so all candidates are tried), and when every candidate's
index port is denied it emits zero results. -/
theorem claim_C8_total (env : Env) :
    (main_run env).1 = 0 ∧
    (∃ g1 g2, Event.permRequest 0x2E g1 ∈ (main_run env).2.2 ∧
              Event.permRequest 0x4E g2 ∈ (main_run env).2.2) ∧
    (env.grant 0x2E = false → env.grant 0x4E = false →
      (main_run env).2.1 = []) := by
  obtain ⟨l1, hl1⟩ := probe_port_trace_head env [] 0x2E
  obtain ⟨l2, hl2⟩ := probe_port_trace_head env (probe_port env [] 0x2E).2 0x4E
  have htr : (main_run env).2.2 = (probe_port env (probe_port env [] 0x2E).2 0x4E).2 :=
    rfl
  refine ⟨rfl, ⟨env.grant 0x2E, env.grant 0x4E, ?_, ?_⟩, ?_⟩
  · rw [htr, hl2, hl1]
    simp
  · rw [htr, hl2]
    simp
  · intro hd hd2
    have hp1 : probe_port env [] 0x2E = (none, (sio_enter env [] 0x2E).2) := by
      simp [probe_port, sio_enter, hd]
    have hp2 : ∀ tr, probe_port env tr 0x4E = (none, (sio_enter env tr 0x4E).2) := by
      intro tr
      simp [probe_port, sio_enter, hd2]
    show ((probe_port env [] 0x2E).1.toList ++
      ((probe_port env (probe_port env [] 0x2E).2 0x4E).1.toList ++ [])) = []
    rw [hp1, hp2]
    rfl

/-- Witness for C8 on the all-denied backend. -/
theorem claim_C8_total_witness :
    envB.grant 0x2E = false ∧ envB.grant 0x4E = false ∧
    (main_run envB).2.1 = [] ∧ (main_run envB).1 = 0 :=
  ⟨by decide, by decide,
   (claim_C8_total envB).2.2 (by decide) (by decide),
   (claim_C8_total envB).1⟩
